import Mathlib

/-!
Verification of the StructSolve client-side analysis pipeline.

The definitions below are a shallow embedding of the TypeScript sources
(`solveContinuousBeam`, the frame-analysis result mapping, and the frame
visualizer), with JavaScript numbers embedded as rationals (`ℚ`) except for
the frame stiffness assembly, which uses `ℝ` because member geometry involves
square roots.  Optional fields (`loadPosition?`, diagram payloads guarded by
`?.`) become `Option`.  Components of the Python solver backend that are not
part of the client sources are modelled from the specification and marked as
such in their doc comments.
-/

namespace StructSolve

/-- Load kinds of the beam path (`LoadType` in `types.ts`). -/
inductive LoadType where
  | UDL
  | POINT_CENTER
  | POINT_ARBITRARY
  | TRIANGULAR
  | MOMENT
  | NONE
deriving DecidableEq, Repr, Inhabited

/-- Support kinds of the beam path (`SupportType` in `types.ts`). -/
inductive SupportType where
  | FIXED
  | PINNED
  | ROLLER
deriving DecidableEq, Repr, Inhabited

/-- A beam span as entered in the client (`Span` in `types.ts`).
`loadPosition` is an optional field in the TypeScript interface. -/
structure Span where
  id : String
  length : ℚ
  elasticModulus : ℚ
  inertia : ℚ
  loadType : LoadType
  loadMagnitude : ℚ
  loadPosition : Option ℚ
  leftSupport : SupportType
  rightSupport : SupportType
deriving DecidableEq, Repr, Inhabited

/-- A load entry of the backend request built in `solveContinuousBeam`. -/
structure BackendLoad where
  load_type : LoadType
  magnitude : ℚ
  position : Option ℚ
deriving DecidableEq, Repr, Inhabited

/-- A span entry of the backend request built in `solveContinuousBeam`. -/
structure BackendSpan where
  id : String
  length : ℚ
  elasticModulus : ℚ
  momentOfInertia : ℚ
  loads : List BackendLoad
deriving DecidableEq, Repr, Inhabited

/-- The nested conditional chain on `span.loadType` used when building the
request load (`solveContinuousBeam`, `load_type` field). -/
def toBackendLoadType (t : LoadType) : LoadType :=
  if t = LoadType.UDL then LoadType.UDL
  else if t = LoadType.POINT_CENTER then LoadType.POINT_CENTER
  else if t = LoadType.POINT_ARBITRARY then LoadType.POINT_ARBITRARY
  else if t = LoadType.TRIANGULAR then LoadType.TRIANGULAR
  else if t = LoadType.MOMENT then LoadType.MOMENT
  else LoadType.NONE

/-- The per-span request mapping of `solveContinuousBeam` (the `backendSpans`
array): unit conversion on E and I at the client boundary, all other fields
passed through, and `position` set only for `POINT_ARBITRARY`. -/
def toBackendSpan (span : Span) : BackendSpan :=
  { id := span.id
    length := span.length
    elasticModulus := span.elasticModulus * 1000000
    momentOfInertia := span.inertia / 1000000
    loads := [{ load_type := toBackendLoadType span.loadType
                magnitude := span.loadMagnitude
                position :=
                  if span.loadType = LoadType.POINT_ARBITRARY then span.loadPosition
                  else none }] }

/-- The `backendSpans` array of the request (`spans.map(...)`). -/
def backendSpans (spans : List Span) : List BackendSpan :=
  spans.map toBackendSpan

/-- A support entry of the backend request. -/
structure JointSupport where
  node_index : ℕ
  support_type : SupportType
deriving DecidableEq, Repr, Inhabited

/-- The `supports` array built by the `spans.forEach` loop of
`solveContinuousBeam`: at index 0 the loop first pushes the left support of
the first span at node 0, then for every span at index `i` it pushes that
span's right support at node `i + 1`. -/
def buildSupports (spans : List Span) : List JointSupport :=
  spans.enum.foldl
    (fun acc is =>
      acc ++ (if is.1 = 0 then [⟨0, is.2.leftSupport⟩] else [])
          ++ [⟨is.1 + 1, is.2.rightSupport⟩])
    []

/-- Sampled diagram payload (`DiagramData` in `types.ts`). -/
structure DiagramData where
  xCoords : List ℚ
  values : List ℚ
deriving DecidableEq, Repr, Inhabited

/-- A per-span result of the backend response, as read by the untyped
(`any`) client code.  The legacy mapping reads the snake_case fields, the
current mapping reads the camelCase moment fields and the optional diagram
payloads (guarded by `?.` in the source); the max aggregation reads
`max_moment`, `shear_left`, `shear_right` in both versions. -/
structure BSpanResult where
  moment_left : ℚ
  moment_right : ℚ
  shear_left : ℚ
  shear_right : ℚ
  max_moment : ℚ
  momentLeft : ℚ
  momentRight : ℚ
  sfdData : Option DiagramData
  fmdData : Option DiagramData
  emdData : Option DiagramData
  bmdData : Option DiagramData
deriving DecidableEq, Repr, Inhabited

/-- A per-node result of the backend response. -/
structure BNodeResult where
  reaction : ℚ
deriving DecidableEq, Repr, Inhabited

/-- The backend response envelope as read by `solveContinuousBeam`. -/
structure BackendResponse where
  success : Bool
  error_message : Option String
  span_results : List BSpanResult
  node_results : List BNodeResult
deriving DecidableEq, Repr, Inhabited

/-- The message of the error thrown on `success == false`:
`data.error_message || 'Calculation failed'`.  A JavaScript `||` falls back
both when the field is absent and when it is the (falsy) empty string. -/
def failureMessage (data : BackendResponse) : String :=
  match data.error_message with
  | some s => if s = "" then "Calculation failed" else s
  | none => "Calculation failed"

/-- A mapped span entry of `CalculationResult` (current version of
`solveContinuousBeam`): diagram payloads are forwarded from the backend
response, with `?. ... || []` fallbacks for the legacy list fields. -/
structure SpanResult where
  spanId : String
  stations : List ℚ
  shearForce : List ℚ
  bendingMoment : List ℚ
  slope : List ℚ
  deflection : List ℚ
  momentLeft : ℚ
  momentRight : ℚ
  sfdData : Option DiagramData
  fmdData : Option DiagramData
  emdData : Option DiagramData
  bmdData : Option DiagramData
deriving DecidableEq, Repr, Inhabited

/-- The client-facing analysis result (`CalculationResult` in `types.ts`). -/
structure CalculationResult where
  spans : List SpanResult
  reactions : List ℚ
  maxMoment : ℚ
  maxShear : ℚ
deriving DecidableEq, Repr, Inhabited

/-- `Math.max(...xs)` over a non-empty list of numbers.  The empty case is
`-Infinity` in JavaScript; it is unreachable here because the mapping code
runs behind the non-empty `span_results` guard, and we return 0 for it. -/
def listMax : List ℚ → ℚ
  | [] => 0
  | x :: xs => xs.foldl max x

/-- `maxMoment` of the result: `Math.max(...span_results.map(s => s.max_moment))`.
No absolute value is applied. -/
def responseMaxMoment (data : BackendResponse) : ℚ :=
  listMax (data.span_results.map fun s => s.max_moment)

/-- `maxShear` of the result:
`Math.max(...span_results.map(s => Math.max(|shear_left|, |shear_right|)))`. -/
def responseMaxShear (data : BackendResponse) : ℚ :=
  listMax (data.span_results.map fun s => max |s.shear_left| |s.shear_right|)

/-- The per-span mapping of the current version of `solveContinuousBeam`:
forwards the backend diagram payloads untouched and derives the legacy list
fields from `sfdData` and `bmdData` with `?. ... || []` fallbacks. -/
def mapSpanResult (span : Span) (spanResult : BSpanResult) : SpanResult :=
  { spanId := span.id
    stations := (spanResult.sfdData.map (fun d => d.xCoords)).getD []
    shearForce := (spanResult.sfdData.map (fun d => d.values)).getD []
    bendingMoment := (spanResult.bmdData.map (fun d => d.values)).getD []
    slope := []
    deflection := []
    momentLeft := spanResult.momentLeft
    momentRight := spanResult.momentRight
    sfdData := spanResult.sfdData
    fmdData := spanResult.fmdData
    emdData := spanResult.emdData
    bmdData := spanResult.bmdData }

/-- The response-to-result mapping of the current version of
`solveContinuousBeam` (the `results` object): `span_results.map` with a
positional lookup `spans[index]`, reactions from `node_results`, and the two
max aggregations. -/
def mapResponse (spans : List Span) (data : BackendResponse) : CalculationResult :=
  { spans := data.span_results.enum.map fun isr =>
      mapSpanResult (spans.getD isr.1 default) isr.2
    reactions := data.node_results.map fun node => node.reaction
    maxMoment := responseMaxMoment data
    maxShear := responseMaxShear data }

/-- The post-fetch control flow of `solveContinuousBeam`: throw with
`failureMessage` when `success` is false, throw when `span_results` is
missing or empty, otherwise return the mapped result. -/
def handleResponse (spans : List Span) (data : BackendResponse) :
    Except String CalculationResult :=
  if data.success = false then Except.error (failureMessage data)
  else if data.span_results.length = 0 then
    Except.error "No span results returned from backend"
  else Except.ok (mapResponse spans data)

/-- A mapped span entry of the legacy version of `solveContinuousBeam`
(no diagram payloads, synthesized station lists). -/
structure LegacySpanResult where
  spanId : String
  stations : List ℚ
  shearForce : List ℚ
  bendingMoment : List ℚ
  slope : List ℚ
  deflection : List ℚ
  momentLeft : ℚ
  momentRight : ℚ
deriving DecidableEq, Repr, Inhabited

/-- The per-span mapping of the legacy version of `solveContinuousBeam`:
21 stations (`steps = 20`), bending moment linearly interpolated between
`moment_left` and `moment_right` at `t = i / steps`, shear equal to
`shear_left` while `i < steps / 2` and `shear_right` otherwise, slope and
deflection filled with zeros.  `currentX` is the sum of the lengths of the
preceding spans. -/
def legacyMapSpanResult (spans : List Span) (index : ℕ) (spanResult : BSpanResult) :
    LegacySpanResult :=
  let span := spans.getD index default
  let steps : ℕ := 20
  let dx : ℚ := span.length / (steps : ℚ)
  let currentX : ℚ := (((spans.take index).map fun s => s.length)).sum
  { spanId := span.id
    stations := (List.range (steps + 1)).map fun i : ℕ => currentX + (i : ℚ) * dx
    shearForce := (List.range (steps + 1)).map fun i : ℕ =>
      if i < steps / 2 then spanResult.shear_left else spanResult.shear_right
    bendingMoment := (List.range (steps + 1)).map fun i : ℕ =>
      spanResult.moment_left * (1 - (i : ℚ) / (steps : ℚ)) +
        spanResult.moment_right * ((i : ℚ) / (steps : ℚ))
    slope := List.replicate (steps + 1) 0
    deflection := List.replicate (steps + 1) 0
    momentLeft := spanResult.moment_left
    momentRight := spanResult.moment_right }

/-! ### Spec-modelled diagram generation (backend DiagramGenerator)

The Python solver backend is not part of the client sources; the definitions
in this section model its DiagramGenerator from the specification. -/

/-- Modelled from the spec: the free-body bending moment of a member treated
as simply supported under only its own load (DiagramGenerator, standard
simply-supported beam formulas per load type).  The backend source is not
under the client tree. -/
def freeMoment (load : BackendLoad) (L x : ℚ) : ℚ :=
  match load.load_type with
  | LoadType.NONE => 0
  | LoadType.UDL => load.magnitude * x * (L - x) / 2
  | LoadType.POINT_CENTER =>
      if x ≤ L / 2 then load.magnitude * x / 2 else load.magnitude * (L - x) / 2
  | LoadType.POINT_ARBITRARY =>
      let a := load.position.getD (L / 2)
      if x ≤ a then load.magnitude * (L - a) * x / L
      else load.magnitude * a * (L - x) / L
  | LoadType.TRIANGULAR =>
      load.magnitude * L * x / 6 - load.magnitude * x ^ 3 / (6 * L)
  | LoadType.MOMENT =>
      let a := load.position.getD (L / 2)
      if x ≤ a then -(load.magnitude * x / L)
      else load.magnitude - load.magnitude * x / L

/-- Modelled from the spec: the free-body shear of the simply supported
member under its own load (DiagramGenerator).  The backend source is not
under the client tree. -/
def freeShear (load : BackendLoad) (L x : ℚ) : ℚ :=
  match load.load_type with
  | LoadType.NONE => 0
  | LoadType.UDL => load.magnitude * (L / 2 - x)
  | LoadType.POINT_CENTER =>
      if x ≤ L / 2 then load.magnitude / 2 else -(load.magnitude / 2)
  | LoadType.POINT_ARBITRARY =>
      let a := load.position.getD (L / 2)
      if x ≤ a then load.magnitude * (L - a) / L else -(load.magnitude * a / L)
  | LoadType.TRIANGULAR =>
      load.magnitude * L / 6 - load.magnitude * x ^ 2 / (2 * L)
  | LoadType.MOMENT => -(load.magnitude / L)

/-- Modelled from the spec: the end-effect moment varies linearly between the
two resolved end moments (DiagramGenerator).  The backend source is not under
the client tree. -/
def endMoment (mL mR L x : ℚ) : ℚ :=
  mL + (mR - mL) * x / L

/-- Modelled from the spec: evenly spaced sample stations including both ends
(DiagramGenerator).  The backend source is not under the client tree. -/
def specStations (L : ℚ) (n : ℕ) : List ℚ :=
  (List.range (n + 1)).map fun i : ℕ => (i : ℚ) * L / (n : ℚ)

/-- Modelled from the spec: the free-body moment diagram payload. -/
def specFMD (load : BackendLoad) (L : ℚ) (n : ℕ) : DiagramData :=
  ⟨specStations L n, (specStations L n).map (freeMoment load L)⟩

/-- Modelled from the spec: the end-effect moment diagram payload. -/
def specEMD (mL mR L : ℚ) (n : ℕ) : DiagramData :=
  ⟨specStations L n, (specStations L n).map (endMoment mL mR L)⟩

/-- Modelled from the spec: the combined bending moment diagram is the
pointwise sum of the free-body and end-effect diagrams (DiagramGenerator,
superposition). -/
def specBMD (load : BackendLoad) (mL mR L : ℚ) (n : ℕ) : DiagramData :=
  ⟨specStations L n,
   List.zipWith (fun a b => a + b) (specFMD load L n).values (specEMD mL mR L n).values⟩

/-- Modelled from the spec: the shear diagram payload (free shear plus the
constant end-effect shear `(momentEnd - momentStart) / length`). -/
def specSFD (load : BackendLoad) (mL mR L : ℚ) (n : ℕ) : DiagramData :=
  ⟨specStations L n,
   (specStations L n).map fun x => freeShear load L x + (mR - mL) / L⟩

/-- Modelled from the spec: a successful backend span result carrying the
diagram payloads produced by the DiagramGenerator.  The backend source is not
under the client tree. -/
def specSpanResult (load : BackendLoad) (L mL mR sL sR maxM : ℚ) (n : ℕ) :
    BSpanResult :=
  { moment_left := mL
    moment_right := mR
    shear_left := sL
    shear_right := sR
    max_moment := maxM
    momentLeft := mL
    momentRight := mR
    sfdData := some (specSFD load mL mR L n)
    fmdData := some (specFMD load L n)
    emdData := some (specEMD mL mR L n)
    bmdData := some (specBMD load mL mR L n) }

/-! ### Frame result mapping (`mappedResult` in the frame analysis page) -/

/-- A per-member result of the frame backend response, as read by the untyped
`mappedResult` mapping (diagram lists are optional, guarded by `||`). -/
structure FrameMemberResult where
  member_id : String
  moment_start : ℚ
  moment_end : ℚ
  stations : List ℚ
  v_diagram : Option (List ℚ)
  m_diagram : Option (List ℚ)
  emd_diagram : Option (List ℚ)
  fmd_diagram : Option (List ℚ)
deriving DecidableEq, Repr, Inhabited

/-- A span entry of the frame-to-beam mapped result (`mappedResult.spans`). -/
structure MappedFrameSpan where
  spanId : String
  momentLeft : ℚ
  momentRight : ℚ
  sfdData : DiagramData
  bmdData : DiagramData
  emdData : DiagramData
  fmdData : DiagramData
deriving DecidableEq, Repr, Inhabited

/-- The per-member body of `mappedResult`: forwards the diagram lists with
`|| []` fallbacks, and falls back to all-zero lists of the length of the
total BMD when the separated `emd_diagram` / `fmd_diagram` are absent. -/
def mappedSpan (res : FrameMemberResult) : MappedFrameSpan :=
  let xCoords := res.stations
  let sfd := res.v_diagram.getD []
  let bmd := res.m_diagram.getD []
  let emd := res.emd_diagram.getD (bmd.map fun _ => 0)
  let fmd := res.fmd_diagram.getD (bmd.map fun _ => 0)
  { spanId := "Member " ++ res.member_id
    momentLeft := res.moment_start
    momentRight := res.moment_end
    sfdData := ⟨xCoords, sfd⟩
    bmdData := ⟨xCoords, bmd⟩
    emdData := ⟨xCoords, emd⟩
    fmdData := ⟨xCoords, fmd⟩ }

/-- The mapped frame result handed to `ResultsDisplay` by `mappedResult`. -/
structure MappedFrameResult where
  spans : List MappedFrameSpan
  reactions : List ℚ
  maxMoment : ℚ
  maxShear : ℚ
deriving DecidableEq, Repr, Inhabited

/-- The mapped frame result handed to `ResultsDisplay` (`mappedResult`):
per-member spans via `mappedSpan`, reactions forwarded, max fields zeroed. -/
def mappedResult (memberResults : List FrameMemberResult) (reactions : List ℚ) :
    MappedFrameResult :=
  { spans := memberResults.map mappedSpan
    reactions := reactions
    maxMoment := 0
    maxShear := 0 }

/-- Modelled from the spec: a frame member result whose diagram lists come
from the DiagramGenerator (free, end-effect, and their pointwise sum).  The
backend source is not under the client tree. -/
def specMemberResult (mid : String) (load : BackendLoad) (L mL mR : ℚ) (n : ℕ) :
    FrameMemberResult :=
  { member_id := mid
    moment_start := mL
    moment_end := mR
    stations := specStations L n
    v_diagram := some (specSFD load mL mR L n).values
    m_diagram := some (specBMD load mL mR L n).values
    emd_diagram := some (specEMD mL mR L n).values
    fmd_diagram := some (specFMD load L n).values }

/-! ### Displacement vector ordering (frame path consumers) -/

/-- A frame node as entered in the client (`FrameNode` in `types.ts`). -/
structure FrameNode where
  id : String
  x : ℚ
  y : ℚ
  fixX : Bool
  fixY : Bool
  fixR : Bool
deriving DecidableEq, Repr, Inhabited

/-- Modelled from the spec: the flat global displacement vector of a frame
result, grouped per node as (x-translation, y-translation, rotation); the
assembling backend is not under the client tree. -/
def flatDisplacements (perNode : List (ℚ × ℚ × ℚ)) : List ℚ :=
  perNode.flatMap fun d => [d.1, d.2.1, d.2.2]

/-- The deformed-shape node positions of the frame visualizer
(`deformedNodes`): node at list position `i` reads its x-translation at flat
index `3 i` and its y-translation at flat index `3 i + 1` (with the `|| 0`
fallback), scaled and added to the node coordinates. -/
def deformedNodes (nodes : List FrameNode) (displacements : List ℚ) (scale : ℚ) :
    List FrameNode :=
  nodes.enum.map fun inode =>
    let idx := inode.1 * 3
    let dx := displacements.getD idx 0
    let dy := displacements.getD (idx + 1) 0
    { inode.2 with x := inode.2.x + dx * scale, y := inode.2.y + dy * scale }

/-- The nodal-displacement table row of the frame analysis page: for the node
at list position `idx`, reads `displacements[3 idx]`, `displacements[3 idx + 1]`,
`displacements[3 idx + 2]` as (Dx, Dy, rotation). -/
def displacementTableRow (displacements : List ℚ) (idx : ℕ) : ℚ × ℚ × ℚ :=
  (displacements.getD (idx * 3) 0,
   displacements.getD (idx * 3 + 1) 0,
   displacements.getD (idx * 3 + 2) 0)

/-! ### Spec-modelled frame stiffness assembly

The direct-stiffness frame solver lives in the backend, which is not part of
the client sources; this section models MemberStiffnessBuilder and
EquationAssembler from the specification.  Member geometry (length and
direction cosines, obtained in the backend from endpoint coordinate deltas
via a square root) is carried as resolved parameters of the member record, so
the symmetry statement quantifies over every possible resolved geometry. -/

/-- Modelled from the spec: the 6×6 local stiffness matrix of a 2-node,
3-DOF-per-node planar beam-column element (MemberStiffnessBuilder): axial
term `EA/L`, bending/shear terms `12EI/L³`, `6EI/L²`, `4EI/L`, `2EI/L` in the
standard Euler-Bernoulli pattern.  The backend source is not under the client
tree. -/
def localStiffness (E I A L : ℚ) : Matrix (Fin 6) (Fin 6) ℚ :=
  let a := E * A / L
  let b := 12 * E * I / L ^ 3
  let c := 6 * E * I / L ^ 2
  let d := 4 * E * I / L
  let e := 2 * E * I / L
  !![a,  0,  0, -a,  0,  0;
     0,  b,  c,  0, -b,  c;
     0,  c,  d,  0, -c,  e;
    -a,  0,  0,  a,  0,  0;
     0, -b, -c,  0,  b, -c;
     0,  c,  e,  0, -c,  d]

/-- Modelled from the spec: static condensation of the row/column of a
released rotational degree of freedom `r` (MemberStiffnessBuilder end-release
handling): the stiffness redistributes as `K i j - K i r · K r j / K r r`.
The backend source is not under the client tree. -/
def condense (K : Matrix (Fin 6) (Fin 6) ℚ) (r : Fin 6) :
    Matrix (Fin 6) (Fin 6) ℚ :=
  Matrix.of fun i j => K i j - K i r * K r j / K r r

/-- Modelled from the spec: condensation of the start (local index 2) and end
(local index 5) rotational DOFs when the member's release flags are set. -/
def applyReleases (K : Matrix (Fin 6) (Fin 6) ℚ) (releaseStart releaseEnd : Bool) :
    Matrix (Fin 6) (Fin 6) ℚ :=
  let K1 := if releaseStart then condense K 2 else K
  if releaseEnd then condense K1 5 else K1

/-- Modelled from the spec: the 6×6 rotation transform built from the
member's direction cosines `c = Δx/L`, `s = Δy/L` (MemberStiffnessBuilder).
The backend source is not under the client tree. -/
def rotationMatrix (c s : ℚ) : Matrix (Fin 6) (Fin 6) ℚ :=
  !![c,  s,  0,  0,  0,  0;
    -s,  c,  0,  0,  0,  0;
     0,  0,  1,  0,  0,  0;
     0,  0,  0,  c,  s,  0;
     0,  0,  0, -s,  c,  0;
     0,  0,  0,  0,  0,  1]

/-- Modelled from the spec: a frame member with resolved geometry.  `length`,
`c` and `s` stand for the backend's length and direction cosines derived from
the endpoint coordinates; they are carried as parameters so that statements
quantify over every resolved geometry. -/
structure ResolvedMember where
  startNodeId : String
  endNodeId : String
  elasticModulus : ℚ
  momentOfInertia : ℚ
  crossSectionArea : ℚ
  length : ℚ
  c : ℚ
  s : ℚ
  releaseStart : Bool
  releaseEnd : Bool
deriving DecidableEq, Repr, Inhabited

/-- Modelled from the spec: the member stiffness in global coordinates,
`Rᵀ · K_local · R` after end-release condensation (MemberStiffnessBuilder).
The backend source is not under the client tree. -/
def memberGlobalStiffness (m : ResolvedMember) : Matrix (Fin 6) (Fin 6) ℚ :=
  Matrix.transpose (rotationMatrix m.c m.s) *
    applyReleases
      (localStiffness m.elasticModulus m.momentOfInertia m.crossSectionArea m.length)
      m.releaseStart m.releaseEnd *
    rotationMatrix m.c m.s

/-- Modelled from the spec: the global DOF index of local DOF `p` of a
member: `3 · nodeIndex + localComponent`, start node for local DOFs 0–2, end
node for 3–5 (EquationAssembler DOF bookkeeping).  The backend source is not
under the client tree. -/
def dofIndex (nodeIds : List String) (m : ResolvedMember) (p : Fin 6) : ℕ :=
  let nodeIdx :=
    if (p : ℕ) < 3 then nodeIds.indexOf m.startNodeId
    else nodeIds.indexOf m.endNodeId
  3 * nodeIdx + (p : ℕ) % 3

/-- Modelled from the spec: additive scatter of every member's 6×6 global
stiffness block into the global stiffness matrix (EquationAssembler).  The
backend source is not under the client tree. -/
def assembleK (nodeIds : List String) (members : List ResolvedMember) (i j : ℕ) : ℚ :=
  (members.map fun m =>
    ∑ p : Fin 6, ∑ q : Fin 6,
      if i = dofIndex nodeIds m p ∧ j = dofIndex nodeIds m q
      then memberGlobalStiffness m p q else 0).sum

/-! ## Theorems -/

/-- A `forEach`-style push loop is an initial segment plus a flat map. -/
theorem foldl_push_eq_flatMap {α β : Type} (g1 g2 : α → List β) :
    ∀ (l : List α) (init : List β),
      l.foldl (fun acc x => acc ++ g1 x ++ g2 x) init
        = init ++ l.flatMap fun x => g1 x ++ g2 x := by
  intro l
  induction l with
  | nil => intro init; simp
  | cons x xs ih =>
      intro init
      simp only [List.foldl_cons, List.flatMap_cons]
      rw [ih]
      simp [List.append_assoc]

/-- Past index 0, the support loop only pushes right supports. -/
theorem flatMap_enumFrom_rights (l : List Span) :
    ∀ n, 1 ≤ n →
      (List.enumFrom n l).flatMap
          (fun is => (if is.1 = 0 then [(⟨0, is.2.leftSupport⟩ : JointSupport)] else [])
            ++ [⟨is.1 + 1, is.2.rightSupport⟩])
        = (List.enumFrom n l).map fun is => ⟨is.1 + 1, is.2.rightSupport⟩ := by
  induction l with
  | nil => intro n _; simp
  | cons x xs ih =>
      intro n hn
      simp only [List.enumFrom, List.flatMap_cons, List.map_cons]
      rw [if_neg (by omega), ih (n + 1) (by omega)]
      simp

/-- Closed form of the support-building loop on a non-empty span list. -/
theorem buildSupports_cons (s0 : Span) (rest : List Span) :
    buildSupports (s0 :: rest)
      = ⟨0, s0.leftSupport⟩ ::
          ((s0 :: rest).enum.map fun is => ⟨is.1 + 1, is.2.rightSupport⟩) := by
  unfold buildSupports
  rw [foldl_push_eq_flatMap
    (fun is : ℕ × Span => if is.1 = 0 then [(⟨0, is.2.leftSupport⟩ : JointSupport)] else [])
    (fun is : ℕ × Span => [⟨is.1 + 1, is.2.rightSupport⟩])]
  rw [List.enum_cons]
  simp only [List.flatMap_cons, List.map_cons, List.nil_append]
  rw [flatMap_enumFrom_rights rest 1 (le_refl 1)]
  simp

/-- Claim C2: for a non-empty list of `n` input spans, the request contains exactly
`n + 1` supports whose `node_index` values are `0, 1, ..., n` in order, with
node 0 carrying the first span's left support and node `i + 1` carrying span
`i`'s right support, so every joint from 0 to the span count is covered
exactly once. -/
theorem buildSupports_covers_joints (spans : List Span) (h : spans ≠ []) :
    (buildSupports spans).length = spans.length + 1 ∧
    (∀ k, k < spans.length + 1 →
      ((buildSupports spans).getD k ⟨0, SupportType.FIXED⟩).node_index = k) ∧
    ((buildSupports spans).getD 0 ⟨0, SupportType.FIXED⟩).support_type
      = (spans.getD 0 default).leftSupport ∧
    (∀ i, i < spans.length →
      ((buildSupports spans).getD (i + 1) ⟨0, SupportType.FIXED⟩).support_type
        = (spans.getD i default).rightSupport) := by
  obtain ⟨s0, rest, rfl⟩ : ∃ s0 rest, spans = s0 :: rest := by
    cases spans with
    | nil => exact absurd rfl h
    | cons a l => exact ⟨a, l, rfl⟩
  rw [buildSupports_cons]
  have hlen : (((s0 :: rest).enum.map
      fun is => (⟨is.1 + 1, is.2.rightSupport⟩ : JointSupport)).length)
      = rest.length + 1 := by
    simp [List.enum_length]
  refine ⟨?_, ?_, ?_, ?_⟩
  · simp [hlen]
  · intro k hk
    match k with
    | 0 => simp
    | Nat.succ k =>
        have hk2 : k < ((s0 :: rest).enum.map
            fun is => (⟨is.1 + 1, is.2.rightSupport⟩ : JointSupport)).length := by
          simp only [hlen]
          simpa using hk
        rw [List.getD_cons_succ, List.getD_eq_getElem _ _ hk2]
        rw [List.getElem_map]
        rw [List.getElem_enum]
  · simp
  · intro i hi
    have hi2 : i < ((s0 :: rest).enum.map
        fun is => (⟨is.1 + 1, is.2.rightSupport⟩ : JointSupport)).length := by
      simp only [hlen]
      simpa using hi
    have hi3 : i < (s0 :: rest).length := by simpa using hi
    rw [List.getD_cons_succ, List.getD_eq_getElem _ _ hi2]
    rw [List.getElem_map, List.getElem_enum, List.getD_eq_getElem _ _ hi3]

/-- A concrete UDL span used by the witnesses. -/
def exSpan1 : Span :=
  { id := "s1", length := 4, elasticModulus := 200, inertia := 500
    loadType := LoadType.UDL, loadMagnitude := 10, loadPosition := none
    leftSupport := SupportType.FIXED, rightSupport := SupportType.PINNED }

/-- A concrete arbitrary-point-load span used by the witnesses. -/
def exSpan2 : Span :=
  { id := "s2", length := 5, elasticModulus := 210, inertia := 400
    loadType := LoadType.POINT_ARBITRARY, loadMagnitude := 12, loadPosition := some 2
    leftSupport := SupportType.PINNED, rightSupport := SupportType.ROLLER }

/-- Witness for C2 at a concrete two-span input. -/
theorem buildSupports_covers_joints_witness :
    (buildSupports [exSpan1, exSpan2]).length = 3 ∧
    ((buildSupports [exSpan1, exSpan2]).getD 1 ⟨0, SupportType.FIXED⟩).node_index = 1 ∧
    ((buildSupports [exSpan1, exSpan2]).getD 0 ⟨0, SupportType.FIXED⟩).support_type
      = SupportType.FIXED ∧
    ((buildSupports [exSpan1, exSpan2]).getD 2 ⟨0, SupportType.FIXED⟩).support_type
      = SupportType.ROLLER := by
  have h := buildSupports_covers_joints [exSpan1, exSpan2] (by decide)
  exact ⟨h.1, h.2.1 1 (by decide), h.2.2.1.trans (by decide),
    (h.2.2.2 1 (by decide)).trans (by decide)⟩

/-- A span whose load type is `POINT_ARBITRARY` but whose optional
`loadPosition` field is absent. -/
def posCounterexampleSpan : Span :=
  { id := "bad", length := 4, elasticModulus := 200, inertia := 500
    loadType := LoadType.POINT_ARBITRARY, loadMagnitude := 12, loadPosition := none
    leftSupport := SupportType.PINNED, rightSupport := SupportType.ROLLER }

/-- Claim C3 counterexample: the stated iff fails — a span with load type
`POINT_ARBITRARY` whose optional `loadPosition` is absent produces a request
load with an undefined position. -/
theorem position_iff_counterexample :
    ¬ (∀ span : Span,
        (∃ p, ((toBackendSpan span).loads.getD 0 default).position = some p)
          ↔ span.loadType = LoadType.POINT_ARBITRARY) := by
  intro hall
  obtain ⟨p, hp⟩ := (hall posCounterexampleSpan).2 rfl
  have hnone : ((toBackendSpan posCounterexampleSpan).loads.getD 0 default).position
      = none := rfl
  rw [hnone] at hp
  exact Option.noConfusion hp

/-- Claim C3 (amended): the request load's position equals the span's optional
`loadPosition` when the load type is `POINT_ARBITRARY` and is undefined for
every other load type; hence a defined position implies `POINT_ARBITRARY`,
and the position is defined iff the load type is `POINT_ARBITRARY` and the
span supplies a `loadPosition`. -/
theorem position_defined_iff (span : Span) :
    ((toBackendSpan span).loads.getD 0 default).position
      = (if span.loadType = LoadType.POINT_ARBITRARY then span.loadPosition else none) ∧
    (span.loadType ≠ LoadType.POINT_ARBITRARY →
      ((toBackendSpan span).loads.getD 0 default).position = none) ∧
    (∀ p, ((toBackendSpan span).loads.getD 0 default).position = some p →
      span.loadType = LoadType.POINT_ARBITRARY ∧ span.loadPosition = some p) := by
  refine ⟨rfl, ?_, ?_⟩
  · intro hne
    simp [toBackendSpan, hne]
  · intro p hp
    by_cases h : span.loadType = LoadType.POINT_ARBITRARY
    · refine ⟨h, ?_⟩
      simpa [toBackendSpan, h] using hp
    · simp [toBackendSpan, h] at hp

/-- Witness for the amended C3 at a concrete span. -/
theorem position_defined_iff_witness :
    exSpan2.loadType = LoadType.POINT_ARBITRARY ∧ exSpan2.loadPosition = some 2 := by
  exact (position_defined_iff exSpan2).2.2 2 (by decide)

/-- Claim C6: the request built at the client boundary multiplies the elastic
modulus by 1 000 000 and divides the inertia by 1 000 000, while length, load
magnitude and (for `POINT_ARBITRARY`) load position pass through unchanged. -/
theorem backendSpans_unit_conversion (spans : List Span) (i : ℕ) (hi : i < spans.length) :
    (backendSpans spans).length = spans.length ∧
    ((backendSpans spans).getD i default).length = (spans.getD i default).length ∧
    ((backendSpans spans).getD i default).elasticModulus
      = (spans.getD i default).elasticModulus * 1000000 ∧
    ((backendSpans spans).getD i default).momentOfInertia
      = (spans.getD i default).inertia / 1000000 ∧
    (((backendSpans spans).getD i default).loads.getD 0 default).magnitude
      = (spans.getD i default).loadMagnitude ∧
    ((spans.getD i default).loadType = LoadType.POINT_ARBITRARY →
      (((backendSpans spans).getD i default).loads.getD 0 default).position
        = (spans.getD i default).loadPosition) := by
  have hlen : (backendSpans spans).length = spans.length := by
    simp [backendSpans]
  have hi2 : i < (backendSpans spans).length := by rw [hlen]; exact hi
  have hget : (backendSpans spans).getD i default = toBackendSpan (spans.getD i default) := by
    rw [List.getD_eq_getElem _ _ hi2, List.getD_eq_getElem _ _ hi]
    simp [backendSpans]
  refine ⟨hlen, ?_, ?_, ?_, ?_, ?_⟩ <;> rw [hget]
  · rfl
  · rfl
  · rfl
  · rfl
  · intro h
    show (if (spans.getD i default).loadType = LoadType.POINT_ARBITRARY
        then (spans.getD i default).loadPosition else none)
      = (spans.getD i default).loadPosition
    exact if_pos h

/-- Witness for C6 at a concrete span list. -/
theorem backendSpans_unit_conversion_witness :
    ((backendSpans [exSpan1, exSpan2]).getD 1 default).elasticModulus = 210 * 1000000 ∧
    ((backendSpans [exSpan1, exSpan2]).getD 1 default).momentOfInertia = 400 / 1000000 ∧
    ((backendSpans [exSpan1, exSpan2]).getD 1 default).length = 5 := by
  have h := backendSpans_unit_conversion [exSpan1, exSpan2] 1 (by decide)
  exact ⟨h.2.2.1.trans (by rfl), h.2.2.2.1.trans (by rfl), h.2.1.trans (by rfl)⟩

/-- Claim C4: when the backend response reports failure, `solveContinuousBeam`
throws the response's error message (falling back to `Calculation failed`
when none is present) and returns no result; a `CalculationResult` is
returned only when the success flag is set and `span_results` is non-empty. -/
theorem failure_handling (spans : List Span) (data : BackendResponse) :
    (data.success = false →
      handleResponse spans data = Except.error (failureMessage data) ∧
      ∀ r, handleResponse spans data ≠ Except.ok r) ∧
    (∀ m, data.error_message = some m → m ≠ "" → failureMessage data = m) ∧
    (data.error_message = none → failureMessage data = "Calculation failed") ∧
    (∀ r, handleResponse spans data = Except.ok r →
      data.success = true ∧ data.span_results ≠ []) := by
  refine ⟨?_, ?_, ?_, ?_⟩
  · intro hs
    constructor
    · simp [handleResponse, hs]
    · intro r hr
      simp [handleResponse, hs] at hr
  · intro m hm hne
    simp [failureMessage, hm, hne]
  · intro hm
    simp [failureMessage, hm]
  · intro r hr
    by_cases hs : data.success = false
    · simp [handleResponse, hs] at hr
    · have hs2 : data.success = true := by
        cases h : data.success
        · exact absurd h hs
        · rfl
      by_cases hnil : data.span_results.length = 0
      · simp [handleResponse, hs2, hnil] at hr
      · exact ⟨hs2, fun hcon => hnil (by simp [hcon])⟩

/-- Witness for C4 at concrete failing and succeeding responses. -/
theorem failure_handling_witness :
    handleResponse []
        { success := false, error_message := some "boom"
          span_results := [], node_results := [] }
      = Except.error "boom" := by
  have h := (failure_handling []
    { success := false, error_message := some "boom"
      span_results := [], node_results := [] }).1 rfl
  exact h.1.trans (congrArg Except.error (by decide))

/-- Claim C8: the client pipeline from request and backend response to result is a
pure function of its arguments — re-solving an identical request against an
identical response yields an identical `CalculationResult`, and the embedded
mapping carries no state between invocations. -/
theorem pipeline_deterministic (spans1 spans2 : List Span)
    (data1 data2 : BackendResponse) (hs : spans1 = spans2) (hd : data1 = data2) :
    handleResponse spans1 data1 = handleResponse spans2 data2 ∧
    mapResponse spans1 data1 = mapResponse spans2 data2 ∧
    buildSupports spans1 = buildSupports spans2 ∧
    backendSpans spans1 = backendSpans spans2 := by
  subst hs
  subst hd
  exact ⟨rfl, rfl, rfl, rfl⟩

/-- Witness for C8 at a concrete request/response pair. -/
theorem pipeline_deterministic_witness :
    handleResponse [exSpan1]
        { success := true, error_message := none
          span_results := [], node_results := [] }
      = handleResponse [exSpan1]
        { success := true, error_message := none
          span_results := [], node_results := [] } := by
  exact (pipeline_deterministic [exSpan1] [exSpan1] _ _ rfl rfl).1

/-- Unfolded station list of the legacy mapping. -/
theorem legacyMapSpanResult_stations (spans : List Span) (index : ℕ) (sr : BSpanResult) :
    (legacyMapSpanResult spans index sr).stations
      = (List.range 21).map fun i : ℕ =>
          (((spans.take index).map fun s => s.length)).sum
            + (i : ℚ) * ((spans.getD index default).length / ((20 : ℕ) : ℚ)) := rfl

/-- Unfolded bending-moment list of the legacy mapping. -/
theorem legacyMapSpanResult_bendingMoment (spans : List Span) (index : ℕ)
    (sr : BSpanResult) :
    (legacyMapSpanResult spans index sr).bendingMoment
      = (List.range 21).map fun i : ℕ =>
          sr.moment_left * (1 - (i : ℚ) / ((20 : ℕ) : ℚ)) +
            sr.moment_right * ((i : ℚ) / ((20 : ℕ) : ℚ)) := rfl

/-- Unfolded shear list of the legacy mapping. -/
theorem legacyMapSpanResult_shearForce (spans : List Span) (index : ℕ)
    (sr : BSpanResult) :
    (legacyMapSpanResult spans index sr).shearForce
      = (List.range 21).map fun i : ℕ =>
          if i < 20 / 2 then sr.shear_left else sr.shear_right := rfl

/-- Claim C9: the legacy mapping samples exactly 21 stations per span, linearly
interpolates the bending moment between the two end moments at fraction
`t = i / 20`, assigns `shear_left` to every station with `i < 10` and
`shear_right` to the rest, and is entirely independent of the span's applied
load (changing every span's load fields leaves the diagrams unchanged). -/
theorem legacy_diagram_shape (spans : List Span) (index : ℕ) (sr : BSpanResult) :
    (legacyMapSpanResult spans index sr).stations.length = 21 ∧
    (legacyMapSpanResult spans index sr).bendingMoment.length = 21 ∧
    (legacyMapSpanResult spans index sr).shearForce.length = 21 ∧
    (∀ i, i < 21 →
      (legacyMapSpanResult spans index sr).bendingMoment.getD i 0
        = sr.moment_left * (1 - (i : ℚ) / 20) + sr.moment_right * ((i : ℚ) / 20)) ∧
    (∀ i, i < 10 →
      (legacyMapSpanResult spans index sr).shearForce.getD i 0 = sr.shear_left) ∧
    (∀ i, 10 ≤ i → i < 21 →
      (legacyMapSpanResult spans index sr).shearForce.getD i 0 = sr.shear_right) ∧
    (∀ lt lm lp,
      legacyMapSpanResult
          (spans.map fun s =>
            { s with loadType := lt, loadMagnitude := lm, loadPosition := lp })
          index sr
        = legacyMapSpanResult spans index sr) := by
  refine ⟨?_, ?_, ?_, ?_, ?_, ?_, ?_⟩
  · rw [legacyMapSpanResult_stations, List.length_map, List.length_range]
  · rw [legacyMapSpanResult_bendingMoment, List.length_map, List.length_range]
  · rw [legacyMapSpanResult_shearForce, List.length_map, List.length_range]
  · intro i hi
    rw [legacyMapSpanResult_bendingMoment]
    have hlen : i < ((List.range 21).map fun i : ℕ =>
        sr.moment_left * (1 - (i : ℚ) / ((20 : ℕ) : ℚ)) +
          sr.moment_right * ((i : ℚ) / ((20 : ℕ) : ℚ))).length := by
      rw [List.length_map, List.length_range]
      exact hi
    rw [List.getD_eq_getElem _ _ hlen, List.getElem_map, List.getElem_range]
    norm_num
  · intro i hi
    rw [legacyMapSpanResult_shearForce]
    have hlen : i < ((List.range 21).map fun i : ℕ =>
        if i < 20 / 2 then sr.shear_left else sr.shear_right).length := by
      rw [List.length_map, List.length_range]
      omega
    rw [List.getD_eq_getElem _ _ hlen, List.getElem_map, List.getElem_range,
      if_pos (by omega)]
  · intro i hi1 hi2
    rw [legacyMapSpanResult_shearForce]
    have hlen : i < ((List.range 21).map fun i : ℕ =>
        if i < 20 / 2 then sr.shear_left else sr.shear_right).length := by
      rw [List.length_map, List.length_range]
      omega
    rw [List.getD_eq_getElem _ _ hlen, List.getElem_map, List.getElem_range,
      if_neg (by omega)]
  · intro lt lm lp
    have hid : ((spans.map fun s : Span =>
        { s with loadType := lt, loadMagnitude := lm, loadPosition := lp }).getD
          index default).id = (spans.getD index default).id := by
      by_cases h : index < spans.length
      · rw [List.getD_eq_getElem _ _ (by simpa using h), List.getD_eq_getElem _ _ h,
          List.getElem_map]
      · rw [List.getD_eq_default _ _ (by simpa using Nat.le_of_not_lt h),
          List.getD_eq_default _ _ (Nat.le_of_not_lt h)]
    have hlen : ((spans.map fun s : Span =>
        { s with loadType := lt, loadMagnitude := lm, loadPosition := lp }).getD
          index default).length = (spans.getD index default).length := by
      by_cases h : index < spans.length
      · rw [List.getD_eq_getElem _ _ (by simpa using h), List.getD_eq_getElem _ _ h,
          List.getElem_map]
      · rw [List.getD_eq_default _ _ (by simpa using Nat.le_of_not_lt h),
          List.getD_eq_default _ _ (Nat.le_of_not_lt h)]
    have htake : (((spans.map fun s : Span =>
        { s with loadType := lt, loadMagnitude := lm, loadPosition := lp }).take
          index).map fun s => s.length)
        = ((spans.take index).map fun s => s.length) := by
      rw [← List.map_take, List.map_map]
      exact List.map_congr_left fun a _ => rfl
    simp only [legacyMapSpanResult, hid, hlen, htake]

/-- Witness for C9 at a concrete index and span result. -/
theorem legacy_diagram_shape_witness :
    (legacyMapSpanResult [exSpan1] 0
        { moment_left := -3, moment_right := 2, shear_left := 5, shear_right := -6
          max_moment := 4, momentLeft := -3, momentRight := 2
          sfdData := none, fmdData := none, emdData := none
          bmdData := none }).shearForce.getD 3 0 = 5 := by
  exact (legacy_diagram_shape [exSpan1] 0
    { moment_left := -3, moment_right := 2, shear_left := 5, shear_right := -6
      max_moment := 4, momentLeft := -3, momentRight := 2
      sfdData := none, fmdData := none, emdData := none
      bmdData := none }).2.2.2.2.1 3 (by decide)

/-- A backend response whose one span has a negative extreme moment. -/
def negResponse : BackendResponse :=
  { success := true
    error_message := none
    span_results := [{ moment_left := 0, moment_right := 0
                       shear_left := 1, shear_right := -2
                       max_moment := -5, momentLeft := 0, momentRight := 0
                       sfdData := none, fmdData := none, emdData := none
                       bmdData := none }]
    node_results := [] }

/-- Claim C10: every successful analysis reports `maxShear` as the maximum over
spans of `max(|shear_left|, |shear_right|)` but `maxMoment` as the maximum of
the raw `max_moment` values with no absolute value, so a structure whose
extreme moment is negative reports a `maxMoment` strictly below the true peak
moment magnitude (third conjunct: a concrete such structure). -/
theorem max_aggregation (spans : List Span) (data : BackendResponse)
    (r : CalculationResult) (hr : handleResponse spans data = Except.ok r) :
    r.maxShear = listMax (data.span_results.map fun s => max |s.shear_left| |s.shear_right|) ∧
    r.maxMoment = listMax (data.span_results.map fun s => s.max_moment) ∧
    (mapResponse [] negResponse).maxMoment
      < listMax (negResponse.span_results.map fun s => |s.max_moment|) := by
  have hneg : (mapResponse [] negResponse).maxMoment
      < listMax (negResponse.span_results.map fun s => |s.max_moment|) := by
    show ((-5 : ℚ)) < |(-5 : ℚ)|
    rw [abs_of_nonpos (by norm_num)]
    norm_num
  by_cases hs : data.success = false
  · simp [handleResponse, hs] at hr
  · by_cases hn : data.span_results.length = 0
    · simp [handleResponse, hs, hn] at hr
    · simp [handleResponse, hs, hn] at hr
      subst hr
      exact ⟨rfl, rfl, hneg⟩

/-- Witness for C10 at the concrete negative-moment response. -/
theorem max_aggregation_witness :
    (mapResponse [] negResponse).maxShear
      = listMax (negResponse.span_results.map fun s => max |s.shear_left| |s.shear_right|) ∧
    (mapResponse [] negResponse).maxMoment
      < listMax (negResponse.span_results.map fun s => |s.max_moment|) := by
  have h := max_aggregation [] negResponse (mapResponse [] negResponse) rfl
  exact ⟨h.1, h.2.2⟩

/-- Flattening one node's displacement triple prepends its three components. -/
theorem flatDisplacements_cons (d : ℚ × ℚ × ℚ) (rest : List (ℚ × ℚ × ℚ)) :
    flatDisplacements (d :: rest) = d.1 :: d.2.1 :: d.2.2 :: flatDisplacements rest := rfl

/-- The flat displacement vector has three entries per node. -/
theorem flatDisplacements_length (perNode : List (ℚ × ℚ × ℚ)) :
    (flatDisplacements perNode).length = 3 * perNode.length := by
  induction perNode with
  | nil => rfl
  | cons d rest ih =>
      rw [flatDisplacements_cons]
      simp only [List.length_cons, ih]
      ring

/-- Reading the table row of node `i` from the flat vector recovers exactly
that node's displacement triple. -/
theorem displacementTableRow_flat (perNode : List (ℚ × ℚ × ℚ)) :
    ∀ i, i < perNode.length →
      displacementTableRow (flatDisplacements perNode) i = perNode.getD i (0, 0, 0) := by
  induction perNode with
  | nil => intro i hi; simp at hi
  | cons d rest ih =>
      intro i hi
      cases i with
      | zero => rfl
      | succ i =>
          have step : displacementTableRow (flatDisplacements (d :: rest)) (i + 1)
              = displacementTableRow (flatDisplacements rest) i := by
            unfold displacementTableRow
            rw [flatDisplacements_cons]
            rw [show (i + 1) * 3 + 1 = i * 3 + 1 + 1 + 1 + 1 from by ring,
              show (i + 1) * 3 + 2 = i * 3 + 2 + 1 + 1 + 1 from by ring,
              show (i + 1) * 3 = i * 3 + 1 + 1 + 1 from by ring]
            simp only [List.getD_cons_succ]
          rw [step, List.getD_cons_succ]
          exact ih i (Nat.lt_of_succ_lt_succ hi)

/-- The deformed-shape consumer reads the flat vector at `3 i` and `3 i + 1`
for the node at list position `i`. -/
theorem deformedNodes_getD (nodes : List FrameNode) (displacements : List ℚ)
    (scale : ℚ) (i : ℕ) (hi : i < nodes.length) :
    (deformedNodes nodes displacements scale).getD i default
      = { nodes.getD i default with
          x := (nodes.getD i default).x + displacements.getD (i * 3) 0 * scale
          y := (nodes.getD i default).y + displacements.getD (i * 3 + 1) 0 * scale } := by
  have hlen : i < (deformedNodes nodes displacements scale).length := by
    simp only [deformedNodes, List.length_map, List.enum_length]
    exact hi
  rw [List.getD_eq_getElem _ _ hlen, List.getD_eq_getElem _ _ hi]
  show (List.map _ nodes.enum)[i] = _
  rw [List.getElem_map, List.getElem_enum]

/-- Claim C5: flattening the per-node displacement triples yields a vector of
length `3 × nodes`, and both consumers agree on the grouping — the
nodal-displacement table reads node `i`'s (Dx, Dy, rotation) at flat indices
`3 i`, `3 i + 1`, `3 i + 2` and recovers exactly node `i`'s triple, and the
deformed-shape rendering shifts node `i` by the same `3 i` / `3 i + 1`
entries scaled. -/
theorem displacement_vector_ordering (perNode : List (ℚ × ℚ × ℚ))
    (nodes : List FrameNode) (scale : ℚ) (i : ℕ) (hi : i < perNode.length) :
    (flatDisplacements perNode).length = 3 * perNode.length ∧
    displacementTableRow (flatDisplacements perNode) i = perNode.getD i (0, 0, 0) ∧
    (i < nodes.length →
      (deformedNodes nodes (flatDisplacements perNode) scale).getD i default
        = { nodes.getD i default with
            x := (nodes.getD i default).x + (perNode.getD i (0, 0, 0)).1 * scale
            y := (nodes.getD i default).y + (perNode.getD i (0, 0, 0)).2.1 * scale }) := by
  refine ⟨flatDisplacements_length perNode, displacementTableRow_flat perNode i hi, ?_⟩
  intro hn
  rw [deformedNodes_getD nodes _ scale i hn]
  have h := displacementTableRow_flat perNode i hi
  have h1 : (flatDisplacements perNode).getD (i * 3) 0 = (perNode.getD i (0, 0, 0)).1 :=
    congrArg Prod.fst h
  have h2 : (flatDisplacements perNode).getD (i * 3 + 1) 0
      = (perNode.getD i (0, 0, 0)).2.1 :=
    congrArg (fun t => t.2.1) h
  rw [h1, h2]

/-- Witness for C5 at a concrete two-node displacement list. -/
theorem displacement_vector_ordering_witness :
    (flatDisplacements [((1 : ℚ), (2 : ℚ), (3 : ℚ)), (4, 5, 6)]).length = 3 * 2 ∧
    displacementTableRow (flatDisplacements [((1 : ℚ), (2 : ℚ), (3 : ℚ)), (4, 5, 6)]) 1
      = [((1 : ℚ), (2 : ℚ), (3 : ℚ)), (4, 5, 6)].getD 1 (0, 0, 0) := by
  have h := displacement_vector_ordering
    [((1 : ℚ), (2 : ℚ), (3 : ℚ)), (4, 5, 6)] [] 1 1 (by decide)
  exact ⟨h.1, h.2.1⟩

/-- Unfolded value list of the spec-modelled free moment diagram. -/
theorem specFMD_values (load : BackendLoad) (L : ℚ) (n : ℕ) :
    (specFMD load L n).values = (specStations L n).map (freeMoment load L) := rfl

/-- Unfolded value list of the spec-modelled end-effect diagram. -/
theorem specEMD_values (mL mR L : ℚ) (n : ℕ) :
    (specEMD mL mR L n).values = (specStations L n).map (endMoment mL mR L) := rfl

/-- Unfolded value list of the spec-modelled combined diagram. -/
theorem specBMD_values (load : BackendLoad) (mL mR L : ℚ) (n : ℕ) :
    (specBMD load mL mR L n).values
      = List.zipWith (fun a b => a + b) (specFMD load L n).values
          (specEMD mL mR L n).values := rfl

/-- Pointwise superposition of the spec-modelled diagram values. -/
theorem specBMD_getD (load : BackendLoad) (mL mR L : ℚ) (n i : ℕ) (hi : i < n + 1) :
    (specBMD load mL mR L n).values.getD i 0
      = (specFMD load L n).values.getD i 0 + (specEMD mL mR L n).values.getD i 0 := by
  have hst : (specStations L n).length = n + 1 := by
    simp [specStations]
  have hf : i < (specFMD load L n).values.length := by
    rw [specFMD_values, List.length_map, hst]
    exact hi
  have he : i < (specEMD mL mR L n).values.length := by
    rw [specEMD_values, List.length_map, hst]
    exact hi
  have hb : i < (List.zipWith (fun a b => a + b) (specFMD load L n).values
      (specEMD mL mR L n).values).length := by
    rw [List.length_zipWith]
    exact lt_min hf he
  rw [specBMD_values, List.getD_eq_getElem _ _ hb, List.getElem_zipWith,
    List.getD_eq_getElem _ _ hf, List.getD_eq_getElem _ _ he]

/-- The span delivered to the display on the beam path: the client mapping
applied to a successful backend response whose only span result carries the
spec-modelled diagram payloads. -/
def beamDelivered (spans : List Span) (load : BackendLoad)
    (L mL mR sL sR maxM : ℚ) (n : ℕ) : SpanResult :=
  (mapResponse spans
    { success := true, error_message := none
      span_results := [specSpanResult load L mL mR sL sR maxM n]
      node_results := [] }).spans.getD 0 default

/-- The span delivered to the display on the frame path: `mappedSpan`
applied to a spec-modelled member result. -/
def frameDelivered (mid : String) (load : BackendLoad) (L mL mR : ℚ) (n : ℕ) :
    MappedFrameSpan :=
  mappedSpan (specMemberResult mid load L mL mR n)

/-- Claim C1: on both display paths, at every sampled station the combined
bending-moment value delivered to the display equals the free-body value plus
the end-effect value — the triple (fmdData, emdData, bmdData) satisfies
`bmd[i] = fmd[i] + emd[i]` at every index. -/
theorem superposition_identity (spans : List Span) (load : BackendLoad)
    (L mL mR sL sR maxM : ℚ) (mid : String) (n i : ℕ) (hi : i < n + 1) :
    ((beamDelivered spans load L mL mR sL sR maxM n).bmdData.getD default).values.getD i 0
      = ((beamDelivered spans load L mL mR sL sR maxM n).fmdData.getD default).values.getD i 0
        + ((beamDelivered spans load L mL mR sL sR maxM n).emdData.getD default).values.getD i 0 ∧
    (frameDelivered mid load L mL mR n).bmdData.values.getD i 0
      = (frameDelivered mid load L mL mR n).fmdData.values.getD i 0
        + (frameDelivered mid load L mL mR n).emdData.values.getD i 0 := by
  constructor
  · show (specBMD load mL mR L n).values.getD i 0
      = (specFMD load L n).values.getD i 0 + (specEMD mL mR L n).values.getD i 0
    exact specBMD_getD load mL mR L n i hi
  · show (specBMD load mL mR L n).values.getD i 0
      = (specFMD load L n).values.getD i 0 + (specEMD mL mR L n).values.getD i 0
    exact specBMD_getD load mL mR L n i hi

/-- Witness for C1 at a concrete UDL span and station. -/
theorem superposition_identity_witness :
    ((beamDelivered [] ⟨LoadType.UDL, 10, none⟩ 6 (-3) 2 5 (-6) 4 4).bmdData.getD
        default).values.getD 2 0
      = ((beamDelivered [] ⟨LoadType.UDL, 10, none⟩ 6 (-3) 2 5 (-6) 4 4).fmdData.getD
          default).values.getD 2 0
        + ((beamDelivered [] ⟨LoadType.UDL, 10, none⟩ 6 (-3) 2 5 (-6) 4 4).emdData.getD
            default).values.getD 2 0 :=
  (superposition_identity [] ⟨LoadType.UDL, 10, none⟩ 6 (-3) 2 5 (-6) 4 "1" 4 2
    (by decide)).1

/-- The local Euler-Bernoulli stiffness matrix is symmetric. -/
theorem localStiffness_symm (E I A L : ℚ) (i j : Fin 6) :
    localStiffness E I A L i j = localStiffness E I A L j i := by
  fin_cases i <;> fin_cases j <;> rfl

/-- Static condensation preserves symmetry. -/
theorem condense_symm (K : Matrix (Fin 6) (Fin 6) ℚ) (r : Fin 6)
    (h : ∀ i j, K i j = K j i) (i j : Fin 6) :
    condense K r i j = condense K r j i := by
  simp only [condense, Matrix.of_apply]
  rw [h i j, h i r, h r j]
  ring

/-- End-release condensation preserves symmetry. -/
theorem applyReleases_symm (K : Matrix (Fin 6) (Fin 6) ℚ) (rs re : Bool)
    (h : ∀ i j, K i j = K j i) (i j : Fin 6) :
    applyReleases K rs re i j = applyReleases K rs re j i := by
  cases rs <;> cases re <;> simp only [applyReleases, Bool.false_eq_true, if_false,
    if_true, ite_true, ite_false]
  · exact h i j
  · exact condense_symm K 5 h i j
  · exact condense_symm K 2 h i j
  · exact condense_symm (condense K 2) 5 (condense_symm K 2 h) i j

/-- Congruence with any transform `Tᵀ · M · T` preserves symmetry. -/
theorem congruence_symm (T M : Matrix (Fin 6) (Fin 6) ℚ)
    (h : ∀ i j, M i j = M j i) (i j : Fin 6) :
    (Matrix.transpose T * M * T) i j = (Matrix.transpose T * M * T) j i := by
  have hM : Matrix.transpose M = M := by
    ext a b
    rw [Matrix.transpose_apply]
    exact h b a
  have hX : Matrix.transpose (Matrix.transpose T * M * T)
      = Matrix.transpose T * M * T := by
    rw [Matrix.transpose_mul, Matrix.transpose_mul, Matrix.transpose_transpose, hM,
      Matrix.mul_assoc]
  have := congrFun (congrFun hX j) i
  rw [Matrix.transpose_apply] at this
  exact this

/-- Every member's global-coordinate stiffness block is symmetric. -/
theorem memberGlobalStiffness_symm (m : ResolvedMember) (p q : Fin 6) :
    memberGlobalStiffness m p q = memberGlobalStiffness m q p :=
  congruence_symm _ _
    (applyReleases_symm _ m.releaseStart m.releaseEnd
      (localStiffness_symm m.elasticModulus m.momentOfInertia m.crossSectionArea
        m.length)) p q

/-- Claim C7: the assembled global stiffness matrix of the frame path is symmetric:
`K[i][j] = K[j][i]` for every pair of degree-of-freedom indices, for every
node list and every member list with arbitrary resolved geometry and end
releases. -/
theorem assembled_stiffness_symmetric (nodeIds : List String)
    (members : List ResolvedMember) (i j : ℕ) :
    assembleK nodeIds members i j = assembleK nodeIds members j i := by
  unfold assembleK
  congr 1
  apply List.map_congr_left
  intro m _
  rw [Finset.sum_comm]
  apply Finset.sum_congr rfl
  intro p _
  apply Finset.sum_congr rfl
  intro q _
  exact if_congr and_comm (memberGlobalStiffness_symm m q p) rfl

end StructSolve
